import Mathlib

/-!
Shallow embedding of `main.py` of the binance-alert-bot repository
(a Binance 15m ±6% move alert bot posting to Telegram), together with
theorems settling the specification claims about it.

Modelling conventions:
* Python `float` prices and percentages are modelled as `ℚ`; the claims'
  concrete values are exactly representable, and the arithmetic used by
  the program (`-`, `/`, `*`, `abs`, comparisons) coincides with exact
  rational arithmetic at those values.
* Python float division by zero raises `ZeroDivisionError`; the embedding
  makes that explicit with `Except` (`.error` = an uncaught exception).
* The SQLite table `alerts (symbol, open_time, PRIMARY KEY(symbol, open_time))`
  is modelled as a list of key pairs without duplicates; `INSERT OR IGNORE`
  appends only when the key is absent.
* Network I/O (`aiohttp` responses, Telegram send outcomes) is modelled by
  oracle functions passed as parameters: the per-attempt HTTP outcome for
  kline fetches, a fetch result per symbol, and a send outcome per message.
-/

/-- A 15m kline as parsed by `get_latest_15m_kline` (`main.py` lines 102-109):
`{"open_time": int(k[0]), "open": float(k[1]), "high": float(k[2]),
  "low": float(k[3]), "close": float(k[4]), "close_time": int(k[6])}`. -/
structure Candle where
  open_time : ℤ
  «open» : ℚ
  high : ℚ
  low : ℚ
  close : ℚ
  close_time : ℤ
deriving DecidableEq, Repr

/-- The dedup store: the rows of the `alerts` table, in insertion order.
The `PRIMARY KEY(symbol, open_time)` constraint means the list never holds
a duplicate key. -/
abbrev Store := List (String × ℤ)

/-- Function `already_alerted` (`main.py` lines 45-51):
`SELECT 1 FROM alerts WHERE symbol=? AND open_time=?` — membership test. -/
def already_alerted (store : Store) (symbol : String) (open_time : ℤ) : Bool :=
  store.contains (symbol, open_time)

/-- Function `mark_alerted` (`main.py` lines 53-58):
`INSERT OR IGNORE INTO alerts(symbol, open_time) VALUES (?,?)` — the primary
key constraint makes the insert a no-op when the key is already present. -/
def mark_alerted (store : Store) (symbol : String) (open_time : ℤ) : Store :=
  if store.contains (symbol, open_time) then store else store ++ [(symbol, open_time)]

/-- Left-pad a numeral string with zeros to width `d` (Python zero-padded
fixed-width formatting). -/
def padZeros (d : ℕ) (s : String) : String :=
  String.mk (List.replicate (d - s.length) '0') ++ s

/-- Round `num / den` to the nearest integer, ties to even — the rounding
Python's fixed-point float formatting performs (both arguments natural,
`den ≠ 0` at call sites). -/
def scaledRound (num den : ℕ) : ℕ :=
  let n0 := num / den
  let r := num % den
  if 2 * r < den then n0
  else if den < 2 * r then n0 + 1
  else if n0 % 2 = 0 then n0 else n0 + 1

/-- Format `f"{q:.df}"` for a nonnegative rational: round `q` to `d` decimal places
(ties to even) and print with exactly `d` fractional digits. -/
def fmtFixedNonneg (d : ℕ) (q : ℚ) : String :=
  let n := scaledRound (q.num.toNat * 10 ^ d) q.den
  Nat.repr (n / 10 ^ d) ++ "." ++ padZeros d (Nat.repr (n % 10 ^ d))

/-- Python `f"{q:.df}"` fixed-point formatting on exact rationals. -/
def fmtFixed (d : ℕ) (q : ℚ) : String :=
  if q < 0 then "-" ++ fmtFixedNonneg d (-q) else fmtFixedNonneg d q

/-- Function `fmt_pct` (`main.py` lines 131-132): `f"{p:.2f}%"`. -/
def fmt_pct (p : ℚ) : String :=
  fmtFixed 2 p ++ "%"

/-- Gregorian date from days since 1970-01-01 (the civil-from-days
algorithm used by C libraries' `gmtime`), valid for nonnegative inputs:
returns (year, month, day). -/
def civilFromDays (z0 : ℕ) : ℕ × ℕ × ℕ :=
  let z := z0 + 719468
  let era := z / 146097
  let doe := z % 146097
  let yoe := (doe - doe / 1460 + doe / 36524 - doe / 146096) / 365
  let doy := doe - (365 * yoe + yoe / 4 - yoe / 100)
  let mp := (5 * doy + 2) / 153
  let d := doy - (153 * mp + 2) / 5 + 1
  let m := if mp < 10 then mp + 3 else mp - 9
  (yoe + era * 400 + (if m ≤ 2 then 1 else 0), m, d)

/-- Python `time.strftime('%Y-%m-%d %H:%M:%S', time.gmtime(secs))` for a
nonnegative number of seconds since the epoch. -/
def strftimeYmdHMS (secs : ℕ) : String :=
  let c := civilFromDays (secs / 86400)
  let rem := secs % 86400
  padZeros 4 (Nat.repr c.1) ++ "-" ++ padZeros 2 (Nat.repr c.2.1) ++ "-" ++
    padZeros 2 (Nat.repr c.2.2) ++ " " ++ padZeros 2 (Nat.repr (rem / 3600)) ++ ":" ++
    padZeros 2 (Nat.repr (rem % 3600 / 60)) ++ ":" ++ padZeros 2 (Nat.repr (rem % 60))

/-- Function `make_alert_text` (`main.py` lines 134-142). The source reads the
module-level `INTERVAL`; here it is passed explicitly. `k['open_time']/1000`
is a Python float division whose result `time.gmtime` truncates; for the
nonnegative epoch-millisecond stamps the exchange returns this is natural
division by 1000. -/
def make_alert_text (INTERVAL : String) (symbol : String) (k : Candle) (pct : ℚ) : String :=
  let direction := if k.close ≥ k.«open» then "▲ UP" else "▼ DOWN"
  "<b>" ++ symbol ++ "</b> " ++ direction ++ "\n" ++
    "Interval: " ++ INTERVAL ++ " | Move: <b>" ++ fmt_pct |pct| ++ "</b>\n" ++
    "Open: " ++ fmtFixed 6 k.«open» ++ " | Close: " ++ fmtFixed 6 k.close ++ "\n" ++
    "High: " ++ fmtFixed 6 k.high ++ " | Low: " ++ fmtFixed 6 k.low ++ "\n" ++
    "Open Time: " ++ strftimeYmdHMS (k.open_time.toNat / 1000) ++ " UTC"

/-- Per-cycle mutable state seen by the workers of `check_once`
(`main.py` lines 144-166): the dedup store (the `alerts` DB table) and the
in-memory `alerts` list. `sends` is a ghost field recording, in order, the
AlertKeys for which `send_telegram` was called (a notification attempt);
it instruments the embedding for the specification and has no effect on
control flow. -/
structure CycleState where
  store : Store
  alerts : List (String × ℚ)
  sends : List (String × ℤ)
deriving DecidableEq, Repr

/-- One `worker(sym)` body (`main.py` lines 152-163), with the network
abstracted: `fetch sym` is the value of `await get_latest_15m_kline(s, sym)`
and `send sym t` the Boolean result of `await send_telegram(text)` for this
symbol's candle. `.error ()` is the uncaught `ZeroDivisionError` that
`pct = (k["close"] - k["open"]) / k["open"] * 100.0` raises when the open
price is zero (`if not k` only filters `None`/empty dicts, not zero fields). -/
def worker (THRESHOLD : ℚ) (fetch : String → Option Candle)
    (send : String → ℤ → Bool) (st : CycleState) (sym : String) :
    Except Unit CycleState :=
  match fetch sym with
  | none => .ok st
  | some k =>
    if k.«open» = 0 then .error ()
    else
      let pct := (k.close - k.«open») / k.«open» * 100
      if THRESHOLD ≤ |pct| ∧ already_alerted st.store sym k.open_time = false then
        let st1 : CycleState := { st with sends := st.sends ++ [(sym, k.open_time)] }
        if send sym k.open_time then
          .ok { st1 with store := mark_alerted st1.store sym k.open_time,
                         alerts := st1.alerts ++ [(sym, pct)] }
        else .ok st1
      else .ok st

/-- Function `check_once` after the symbol universe is known (`main.py` lines 144-166):
run every symbol's worker against the shared store. The Python code runs the
workers concurrently under a semaphore, but each worker touches only its own
(symbol, open_time) key, so the sequential fold is a faithful linearisation;
an uncaught worker exception aborts the `asyncio.gather` and propagates. -/
def check_once (THRESHOLD : ℚ) (symbols : List String)
    (fetch : String → Option Candle) (send : String → ℤ → Bool)
    (store : Store) : Except Unit CycleState :=
  symbols.foldlM (worker THRESHOLD fetch send) ⟨store, [], []⟩

/-- The observable outcome of one HTTP attempt inside
`get_latest_15m_kline`: either a transport-level `aiohttp.ClientError`, or a
response with a status code and (for successful statuses) the parsed kline
array — `none` models an empty array, `some k` a first element parsed into a
`Candle`. -/
inductive AttemptOutcome where
  | transportError : AttemptOutcome
  | status : ℕ → Option Candle → AttemptOutcome
deriving DecidableEq

/-- Whether an attempt outcome sends `get_latest_15m_kline` around its retry
loop: a 418/429/451 status (rate limited or blocked), an error status
(`raise_for_status` raises `aiohttp.ClientResponseError`, a `ClientError`),
or a transport `ClientError`. -/
def retries : AttemptOutcome → Bool
  | .transportError => true
  | .status code _ => code = 418 || code = 429 || code = 451 || 400 ≤ code

/-- Result of a `get_latest_15m_kline` call: the returned value, the
`asyncio.sleep` durations performed (in seconds, in order), and how many
HTTP attempts were made. -/
structure FetchResult where
  result : Option Candle
  sleeps : List ℕ
  attemptsMade : ℕ
deriving DecidableEq, Repr

/-- The retry loop of `get_latest_15m_kline` (`main.py` lines 90-112),
recursing on the remaining iterations of `for attempt in range(3)`:
`attempt` is the current index, `fuel` the iterations left. On a 418/429/451
status or a `ClientError` it sleeps `1 + attempt * 2` seconds and retries;
on a successful status it returns `None` for an empty array, else the parsed
candle; with no iterations left it returns `None`. -/
def fetchGo (att : ℕ → AttemptOutcome) (attempt : ℕ) : ℕ → FetchResult
  | 0 => ⟨none, [], 0⟩
  | fuel + 1 =>
    match att attempt with
    | .transportError =>
      let r := fetchGo att (attempt + 1) fuel
      ⟨r.result, (1 + attempt * 2) :: r.sleeps, r.attemptsMade + 1⟩
    | .status code body =>
      if code = 418 ∨ code = 429 ∨ code = 451 then
        let r := fetchGo att (attempt + 1) fuel
        ⟨r.result, (1 + attempt * 2) :: r.sleeps, r.attemptsMade + 1⟩
      else if 400 ≤ code then
        let r := fetchGo att (attempt + 1) fuel
        ⟨r.result, (1 + attempt * 2) :: r.sleeps, r.attemptsMade + 1⟩
      else
        match body with
        | none => ⟨none, [], 1⟩
        | some k => ⟨some k, [], 1⟩

/-- Function `get_latest_15m_kline` (`main.py` lines 87-112) with the per-attempt
HTTP outcomes given by the oracle `att`. -/
def get_latest_15m_kline (att : ℕ → AttemptOutcome) : FetchResult :=
  fetchGo att 0 3

/-- One entry of the exchange-info `symbols` array as consulted by
`get_symbols`: each field is `dict.get`, so possibly absent. -/
structure SymbolInfo where
  status : Option String
  contractType : Option String
  quoteAsset : Option String
  symbol : Option String
deriving DecidableEq, Repr

/-- One iteration of the `for s in data.get("symbols", [])` loop of
`get_symbols` (`main.py` lines 73-84): `continue` on a status other than
`TRADING`, a contract type other than `PERPETUAL`, a quote asset other than
`QUOTE`, and on a falsy (missing or empty) symbol name or an excluded one;
otherwise append the name. -/
def get_symbols_step (QUOTE : String) (EXCLUDED : List String)
    (symbols : List String) (s : SymbolInfo) : List String :=
  if s.status ≠ some "TRADING" then symbols
  else if s.contractType ≠ some "PERPETUAL" then symbols
  else if s.quoteAsset ≠ some QUOTE then symbols
  else
    match s.symbol with
    | none => symbols
    | some sym =>
      if sym = "" ∨ sym ∈ EXCLUDED then symbols else symbols ++ [sym]

/-- Function `get_symbols` (`main.py` lines 66-85) applied to a parsed exchange-info
`symbols` list. -/
def get_symbols (QUOTE : String) (EXCLUDED : List String)
    (data : List SymbolInfo) : List String :=
  data.foldl (get_symbols_step QUOTE EXCLUDED) []

/-- The per-cycle summary printed by `main_loop` (`main.py` lines 174-177):
`f"Sent {len(alerts)} alerts: " + ", ".join(f"{s}:{abs(p):.2f}%" ...)` when
any alert was sent, else `"No new alerts this cycle."`. -/
def cycle_log (alerts : List (String × ℚ)) : String :=
  if alerts ≠ [] then
    "Sent " ++ Nat.repr alerts.length ++ " alerts: " ++
      String.intercalate ", " (alerts.map fun p => p.1 ++ ":" ++ fmt_pct |p.2|)
  else "No new alerts this cycle."

/-- One full `check_once()` call including the symbol-universe fetch
(`main.py` lines 144-147): a failed `get_symbols` raises before any
per-symbol work, so the whole cycle aborts with no store access. -/
def run_cycle (THRESHOLD : ℚ) (univ : Except Unit (List String))
    (fetch : String → Option Candle) (send : String → ℤ → Bool)
    (store : Store) : Except Unit CycleState :=
  match univ with
  | .error _ => .error ()
  | .ok symbols => check_once THRESHOLD symbols fetch send store

/-- The oracle inputs of one scheduler-loop iteration: the universe-fetch
outcome, the per-symbol fetch results, the per-key send outcomes, and the
wall-clock seconds the cycle consumed (`time.time() - start`). -/
structure CycleEnv where
  univ : Except Unit (List String)
  fetch : String → Option Candle
  send : String → ℤ → Bool
  elapsed : ℚ

/-- One iteration of the `while True` body of `main_loop`
(`main.py` lines 170-182): run the cycle; on success print the summary, on
an exception print `"Error in cycle:"` and the exception (the `except
Exception` catches it, so the loop continues); either way sleep
`max(0, POLL_SECONDS - elapsed)`. Returns (store after the cycle, log line,
sleep duration). The error branch keeps the incoming store: it is exercised
here for exceptions raised before any per-symbol store write (a failed
universe fetch). -/
def main_loop_step (THRESHOLD POLL_SECONDS : ℚ) (e : CycleEnv)
    (store : Store) : Store × String × ℚ :=
  match run_cycle THRESHOLD e.univ e.fetch e.send store with
  | .ok st => (st.store, cycle_log st.alerts, max 0 (POLL_SECONDS - e.elapsed))
  | .error _ => (store, "Error in cycle:", max 0 (POLL_SECONDS - e.elapsed))

/-- The first `n` iterations of `main_loop` (`main.py` lines 168-182) under
the oracle sequence `env`: the final store and the (log line, sleep) pair of
every completed iteration. Totality of this function in `n` is the loop's
non-termination: every iteration count is reached, whatever the cycles do. -/
def main_loop_run (THRESHOLD POLL_SECONDS : ℚ) (env : ℕ → CycleEnv)
    (store0 : Store) : ℕ → Store × List (String × ℚ)
  | 0 => (store0, [])
  | n + 1 =>
    let prev := main_loop_run THRESHOLD POLL_SECONDS env store0 n
    let step := main_loop_step THRESHOLD POLL_SECONDS (env n) prev.1
    (step.1, prev.2 ++ [step.2])

/-- A process environment or a `.env` file: a partial map from variable
names to values. -/
abbrev EnvMap := String → Option String

/-- Python `os.getenv(key, default)`. -/
def getenv (env : EnvMap) (key dflt : String) : String :=
  (env key).getD dflt

/-- Call `load_dotenv()` (`main.py` line 24): values from the `.env` file are
added to the environment only for variables not already set (the library's
default `override=False`). -/
def load_dotenv (env dotenv : EnvMap) : EnvMap :=
  fun key =>
    match env key with
    | some v => some v
    | none => dotenv key

/-- Numeric value of a decimal digit character, `none` otherwise. -/
def digitVal (c : Char) : Option ℕ :=
  if c.isDigit then some (c.toNat - 48) else none

/-- Accumulate a base-10 numeral from characters; `none` on a non-digit. -/
def digitsToNatGo (acc : ℕ) : List Char → Option ℕ
  | [] => some acc
  | c :: cs =>
    match digitVal c with
    | none => none
    | some d => digitsToNatGo (acc * 10 + d) cs

/-- Parse a nonempty all-digit character list as a natural number. -/
def parseNatDigits : List Char → Option ℕ
  | [] => none
  | c :: cs => digitsToNatGo 0 (c :: cs)

/-- Split a character list at its first `'.'`: (integer part, rest
including the dot when present). -/
def spanNotDot : List Char → List Char × List Char
  | [] => ([], [])
  | c :: cs =>
    if c = '.' then ([], c :: cs)
    else
      let r := spanNotDot cs
      (c :: r.1, r.2)

/-- Python `float()` restricted to the plain decimal literals this
program's configuration uses: optional sign, digits, optional single
fractional part; at least one digit overall. -/
def parseDecimal (s : String) : Option ℚ :=
  let signed : Bool × List Char :=
    match s.data with
    | '-' :: rest => (true, rest)
    | '+' :: rest => (false, rest)
    | cs => (false, cs)
  let neg := signed.1
  let body := spanNotDot signed.2
  match body.2 with
  | [] => (parseNatDigits body.1).map fun n =>
      (((if neg then -(n : ℤ) else (n : ℤ)) : ℤ) : ℚ)
  | _ :: frac =>
    if frac.contains '.' then none
    else if body.1 = [] ∧ frac = [] then none
    else
      match (if body.1 = [] then some 0 else parseNatDigits body.1),
        (if frac = [] then some 0 else parseNatDigits frac) with
      | some i, some f =>
        let q : ℚ := (i : ℚ) + (f : ℚ) / 10 ^ frac.length
        some (if neg then -q else q)
      | _, _ => none

/-- Python `int()` on a plain signed numeral. -/
def parsePyInt (s : String) : Option ℤ :=
  match s.data with
  | '-' :: rest => (parseNatDigits rest).map fun n => -(n : ℤ)
  | '+' :: rest => (parseNatDigits rest).map fun n => (n : ℤ)
  | cs => (parseNatDigits cs).map fun n => (n : ℤ)

/-- Python `str.upper()` (character-wise, ASCII suffices here). -/
def toUpperStr (s : String) : String :=
  String.mk (s.data.map Char.toUpper)

/-- Python `str.split(",")` as character lists. -/
def splitCommaGo (acc : List Char) : List Char → List (List Char)
  | [] => [acc.reverse]
  | c :: cs =>
    if c = ',' then acc.reverse :: splitCommaGo [] cs
    else splitCommaGo (c :: acc) cs

/-- Python `str.split(",")`. -/
def splitComma (s : String) : List String :=
  (splitCommaGo [] s.data).map String.mk

/-- Python `str.strip()`. -/
def stripStr (s : String) : String :=
  String.mk (((s.data.dropWhile Char.isWhitespace).reverse.dropWhile
    Char.isWhitespace).reverse)

/-- The module-level configuration, named as in `main.py` lines 18-32.
`EXCLUDED` (a Python `set`) is modelled by list membership. -/
structure Config where
  INTERVAL : String
  THRESHOLD : ℚ
  POLL_SECONDS : ℤ
  QUOTE : String
  EXCLUDED : List String
  TELEGRAM_BOT_TOKEN : String
  TELEGRAM_CHAT_ID : String
  DB_PATH : String
deriving DecidableEq, Repr

/-- Module import-time evaluation of `main.py` lines 18-32, in source
order: `INTERVAL`, `THRESHOLD`, `POLL_SECONDS`, `QUOTE` and `EXCLUDED` are
read from the process environment BEFORE `load_dotenv()` runs (line 24);
`TELEGRAM_BOT_TOKEN`, `TELEGRAM_CHAT_ID` and `DB_PATH` are read after it.
Errors: an unparsable number raises `ValueError`; missing credentials raise
`SystemExit` with the line-30 message. -/
def module_init (env dotenv : EnvMap) : Except String Config :=
  let INTERVAL := getenv env "INTERVAL" "15m"
  match parseDecimal (getenv env "THRESHOLD" "6") with
  | none => .error "ValueError: THRESHOLD"
  | some THRESHOLD =>
    match parsePyInt (getenv env "POLL_SECONDS" "60") with
    | none => .error "ValueError: POLL_SECONDS"
    | some POLL_SECONDS =>
      let QUOTE := getenv env "QUOTE" "USDT"
      let EXCLUDED :=
        if (env "EXCLUDED").getD "" = "" then ([] : List String)
        else splitComma (toUpperStr ((env "EXCLUDED").getD ""))
      let env1 := load_dotenv env dotenv
      let TELEGRAM_BOT_TOKEN := stripStr (getenv env1 "TELEGRAM_BOT_TOKEN" "")
      let TELEGRAM_CHAT_ID := stripStr (getenv env1 "TELEGRAM_CHAT_ID" "")
      if TELEGRAM_BOT_TOKEN = "" ∨ TELEGRAM_CHAT_ID = "" then
        .error "Please set TELEGRAM_BOT_TOKEN and TELEGRAM_CHAT_ID in your environment or .env file."
      else
        .ok ⟨INTERVAL, THRESHOLD, POLL_SECONDS, QUOTE, EXCLUDED,
          TELEGRAM_BOT_TOKEN, TELEGRAM_CHAT_ID, getenv env1 "DB_PATH" "alerts.db"⟩

lemma already_alerted_mark_self (store : Store) (sym : String) (t : ℤ) :
    already_alerted (mark_alerted store sym t) sym t = true := by
  unfold already_alerted mark_alerted
  split
  · assumption
  · simp

lemma already_alerted_mark_mono (store : Store) (sym a : String) (t b : ℤ)
    (h : already_alerted store a b = true) :
    already_alerted (mark_alerted store sym t) a b = true := by
  unfold already_alerted mark_alerted at *
  split
  · exact h
  · simp at h ⊢
    exact Or.inl h

/-- C4: `record` (`mark_alerted`) is idempotent: inserting an
already-present AlertKey leaves the store exactly as it was, with no
duplicate row and no error. -/
theorem mark_alerted_idempotent (store : Store) (sym : String) (t : ℤ) :
    mark_alerted (mark_alerted store sym t) sym t = mark_alerted store sym t := by
  by_cases h : store.contains (sym, t) = true
  · unfold mark_alerted
    rw [if_pos h, if_pos h]
  · unfold mark_alerted
    rw [if_neg h,
      if_pos (show List.contains (store ++ [(sym, t)]) (sym, t) = true by simp)]

/-- C5: a symbol whose candle moves strictly less than THRESHOLD in
absolute value triggers no notification attempt and no AlertRecord: the
worker leaves the cycle state untouched. -/
theorem below_threshold_no_action (THRESHOLD : ℚ) (fetch : String → Option Candle)
    (send : String → ℤ → Bool) (st : CycleState) (sym : String) (k : Candle)
    (hfetch : fetch sym = some k) (hopen : k.«open» ≠ 0)
    (hlt : |(k.close - k.«open») / k.«open» * 100| < THRESHOLD) :
    worker THRESHOLD fetch send st sym = .ok st := by
  unfold worker
  rw [hfetch]
  simp only [if_neg hopen]
  rw [if_neg]
  intro hc
  exact absurd hc.1 (not_le.mpr hlt)

/-- C5 witness: the spec's concrete scenario — "XYZUSDT",
open 50, close 51 gives pct = 2 < 6, and the state is unchanged. -/
theorem below_threshold_no_action_witness :
    worker 6 (fun _ => some ⟨2000, 50, 51, 50, 51, 2899999⟩) (fun _ _ => true)
      ⟨[], [], []⟩ "XYZUSDT" = .ok ⟨[], [], []⟩ :=
  below_threshold_no_action 6 _ _ _ "XYZUSDT" ⟨2000, 50, 51, 50, 51, 2899999⟩
    rfl (by norm_num) (by norm_num)

/-- C2: for a qualifying symbol (move at or above THRESHOLD, key not yet
recorded), the worker makes exactly one notification attempt and records
the AlertKey iff the send succeeded; a failed send leaves the store
unchanged, so the key stays eligible. -/
theorem record_iff_send_success (THRESHOLD : ℚ) (fetch : String → Option Candle)
    (send : String → ℤ → Bool) (st : CycleState) (sym : String) (k : Candle)
    (hfetch : fetch sym = some k) (hopen : k.«open» ≠ 0)
    (hq : THRESHOLD ≤ |(k.close - k.«open») / k.«open» * 100|)
    (hnew : already_alerted st.store sym k.open_time = false) :
    ∃ st', worker THRESHOLD fetch send st sym = .ok st' ∧
      st'.sends = st.sends ++ [(sym, k.open_time)] ∧
      (send sym k.open_time = true →
        st'.store = mark_alerted st.store sym k.open_time ∧
        already_alerted st'.store sym k.open_time = true) ∧
      (send sym k.open_time = false →
        st'.store = st.store ∧
        already_alerted st'.store sym k.open_time = false) := by
  unfold worker
  rw [hfetch]
  simp only [if_neg hopen, if_pos (And.intro hq hnew)]
  cases hs : send sym k.open_time with
  | true =>
    refine ⟨_, rfl, rfl, fun _ => ⟨rfl, ?_⟩, fun h => by simp at h⟩
    exact already_alerted_mark_self st.store sym k.open_time
  | false =>
    exact ⟨_, rfl, rfl, fun h => by simp at h, fun _ => ⟨rfl, hnew⟩⟩

/-- C2 witness: a 6% drop on a fresh key with a failing send leaves the
store empty and eligible; the attempt is still recorded in the ghost
trace. -/
theorem record_iff_send_success_witness :
    ∃ st', worker 6 (fun _ => some ⟨1000, 100, 100, 94, 94, 1899999⟩)
      (fun _ _ => false) ⟨[], [], []⟩ "ABCUSDT" = .ok st' ∧
      st'.sends = [] ++ [("ABCUSDT", 1000)] ∧
      (false = true → st'.store = mark_alerted [] "ABCUSDT" 1000 ∧
        already_alerted st'.store "ABCUSDT" 1000 = true) ∧
      (false = false → st'.store = [] ∧
        already_alerted st'.store "ABCUSDT" 1000 = false) :=
  record_iff_send_success 6 _ _ ⟨[], [], []⟩ "ABCUSDT"
    ⟨1000, 100, 100, 94, 94, 1899999⟩ rfl (by norm_num) (by norm_num) rfl

/-- C3: contrary to the spec, a candle with `open == 0` is NOT skipped:
the worker performs the division and raises `ZeroDivisionError`, and the
exception propagates out of the cycle, so the cycle aborts instead of
processing the remaining symbols. -/
theorem zero_open_raises :
    worker 6 (fun _ => some ⟨1000, 0, 1, 0, 1, 1899999⟩) (fun _ _ => true)
      ⟨[], [], []⟩ "NEWUSDT" = .error () ∧
    check_once 6 ["NEWUSDT", "ABCUSDT"]
      (fun s => if s = "NEWUSDT" then some ⟨1000, 0, 1, 0, 1, 1899999⟩
        else some ⟨1000, 100, 100, 94, 94, 1899999⟩)
      (fun _ _ => true) [] = .error () := by
  constructor
  · rfl
  · rfl

lemma worker_preserves_key (THRESHOLD : ℚ) (fetch : String → Option Candle)
    (send : String → ℤ → Bool) (st st' : CycleState) (y sym : String) (t : ℤ)
    (hrec : already_alerted st.store sym t = true)
    (hns : (sym, t) ∉ st.sends)
    (hok : worker THRESHOLD fetch send st y = .ok st') :
    already_alerted st'.store sym t = true ∧ (sym, t) ∉ st'.sends := by
  unfold worker at hok
  split at hok
  · cases hok
    exact ⟨hrec, hns⟩
  · rename_i k hf
    by_cases hz : k.«open» = 0
    · rw [if_pos hz] at hok
      cases hok
    · rw [if_neg hz] at hok
      by_cases hc : THRESHOLD ≤ |(k.close - k.«open») / k.«open» * 100| ∧
          already_alerted st.store y k.open_time = false
      · rw [if_pos hc] at hok
        dsimp only at hok
        have hne : (y, k.open_time) ≠ (sym, t) := by
          intro he
          rw [Prod.mk.injEq] at he
          rw [he.1, he.2] at hc
          rw [hrec] at hc
          simp at hc
        have hsends : (sym, t) ∉ st.sends ++ [(y, k.open_time)] := by
          rw [List.mem_append]
          rintro (h | h)
          · exact hns h
          · rw [List.mem_singleton] at h
            exact hne h.symm
        by_cases hsend : send y k.open_time = true
        · rw [if_pos hsend] at hok
          cases hok
          exact ⟨already_alerted_mark_mono _ _ _ _ _ hrec, hsends⟩
        · rw [if_neg hsend] at hok
          cases hok
          exact ⟨hrec, hsends⟩
      · rw [if_neg hc] at hok
        cases hok
        exact ⟨hrec, hns⟩

lemma foldlM_worker_invariant (P : CycleState → Prop) (THRESHOLD : ℚ)
    (fetch : String → Option Candle) (send : String → ℤ → Bool)
    (hstep : ∀ st y st', P st →
      worker THRESHOLD fetch send st y = .ok st' → P st') :
    ∀ (symbols : List String) (st st' : CycleState), P st →
      symbols.foldlM (worker THRESHOLD fetch send) st = .ok st' → P st' := by
  intro symbols
  induction symbols with
  | nil =>
    intro st st' hP hrun
    simp only [List.foldlM] at hrun
    cases hrun
    exact hP
  | cons y ys ih =>
    intro st st' hP hrun
    simp only [List.foldlM] at hrun
    cases hw : worker THRESHOLD fetch send st y with
    | error e =>
      rw [hw] at hrun
      simp [Bind.bind, Except.bind] at hrun
    | ok st1 =>
      rw [hw] at hrun
      simp only [Bind.bind, Except.bind] at hrun
      exact ih st1 st' (hstep st y st1 hP hw) hrun

/-- C1: once an AlertKey (sym, t) is recorded in the dedup store, a cycle
whose fetch still reports a candle with that open time for the symbol makes
no notification attempt for the key (whatever the move size), and the key
stays recorded — so at most one successful notification is ever sent for
it. -/
theorem recorded_key_never_resent (THRESHOLD : ℚ) (symbols : List String)
    (fetch : String → Option Candle) (send : String → ℤ → Bool)
    (store : Store) (sym : String) (t : ℤ) (out : CycleState)
    (hrec : already_alerted store sym t = true)
    (hlatest : ∀ k, fetch sym = some k → k.open_time = t)
    (hrun : check_once THRESHOLD symbols fetch send store = .ok out) :
    (sym, t) ∉ out.sends ∧ already_alerted out.store sym t = true := by
  have h := foldlM_worker_invariant
    (fun st => already_alerted st.store sym t = true ∧ (sym, t) ∉ st.sends)
    THRESHOLD fetch send
    (fun st y st' hP hok =>
      worker_preserves_key THRESHOLD fetch send st st' y sym t hP.1 hP.2 hok)
    symbols ⟨store, [], []⟩ out ⟨hrec, List.not_mem_nil _⟩ hrun
  exact ⟨h.2, h.1⟩

/-- C1 witness: with ("ABCUSDT", 1000) already recorded and the same candle
still latest, a full cycle makes no notification attempt and keeps the key
recorded. -/
theorem recorded_key_never_resent_witness :
    ("ABCUSDT", (1000 : ℤ)) ∉ (⟨[("ABCUSDT", 1000)], [], []⟩ : CycleState).sends ∧
    already_alerted (⟨[("ABCUSDT", 1000)], [], []⟩ : CycleState).store "ABCUSDT" 1000 = true :=
  recorded_key_never_resent 6 ["ABCUSDT"]
    (fun _ => some ⟨1000, 100, 100, 94, 94, 1899999⟩) (fun _ _ => true)
    [("ABCUSDT", 1000)] "ABCUSDT" 1000 ⟨[("ABCUSDT", 1000)], [], []⟩
    (by decide)
    (fun k hk => by cases hk; rfl)
    (by
      unfold check_once
      simp only [List.foldlM, worker]
      rw [if_neg (by norm_num), if_neg]
      · rfl
      · rintro ⟨-, h2⟩
        exact absurd h2 (by decide))

lemma fetchGo_succ (att : ℕ → AttemptOutcome) (a f : ℕ) :
    fetchGo att a (f + 1) =
      match att a with
      | .transportError =>
        let r := fetchGo att (a + 1) f
        ⟨r.result, (1 + a * 2) :: r.sleeps, r.attemptsMade + 1⟩
      | .status code body =>
        if code = 418 ∨ code = 429 ∨ code = 451 then
          let r := fetchGo att (a + 1) f
          ⟨r.result, (1 + a * 2) :: r.sleeps, r.attemptsMade + 1⟩
        else if 400 ≤ code then
          let r := fetchGo att (a + 1) f
          ⟨r.result, (1 + a * 2) :: r.sleeps, r.attemptsMade + 1⟩
        else
          match body with
          | none => ⟨none, [], 1⟩
          | some k => ⟨some k, [], 1⟩ := rfl

lemma fetchGo_retry (att : ℕ → AttemptOutcome) (a f : ℕ)
    (h : retries (att a) = true) :
    fetchGo att a (f + 1) =
      ⟨(fetchGo att (a + 1) f).result,
       (1 + a * 2) :: (fetchGo att (a + 1) f).sleeps,
       (fetchGo att (a + 1) f).attemptsMade + 1⟩ := by
  rw [fetchGo_succ]
  split
  · rfl
  · rename_i code body heq
    rw [heq] at h
    unfold retries at h
    simp only [Bool.or_eq_true, decide_eq_true_eq] at h
    by_cases h1 : code = 418 ∨ code = 429 ∨ code = 451
    · rw [if_pos h1]
    · rw [if_neg h1, if_pos (show 400 ≤ code by tauto)]

lemma fetchGo_success (att : ℕ → AttemptOutcome) (a f code : ℕ)
    (body : Option Candle) (hatt : att a = .status code body)
    (h1 : ¬(code = 418 ∨ code = 429 ∨ code = 451)) (h2 : ¬400 ≤ code) :
    fetchGo att a (f + 1) = ⟨body, [], 1⟩ := by
  cases body with
  | none =>
    rw [fetchGo_succ]
    simp only [hatt, if_neg h1, if_neg h2]
  | some k =>
    rw [fetchGo_succ]
    simp only [hatt, if_neg h1, if_neg h2]

lemma retry_step_bounds (att : ℕ → AttemptOutcome) (a f : ℕ)
    (ha : (fetchGo att (a + 1) f).attemptsMade ≤ f)
    (hs : (fetchGo att (a + 1) f).sleeps <+:
      (List.range f).map (fun i => 1 + (a + 1 + i) * 2)) :
    (fetchGo att (a + 1) f).attemptsMade + 1 ≤ f + 1 ∧
    ((1 + a * 2) :: (fetchGo att (a + 1) f).sleeps) <+:
      (List.range (f + 1)).map (fun i => 1 + (a + i) * 2) := by
  refine ⟨Nat.succ_le_succ ha, ?_⟩
  rw [List.range_succ_eq_map, List.map_cons, List.map_map]
  rw [List.cons_prefix_cons]
  constructor
  · simp
  · have he : (List.range f).map ((fun i => 1 + (a + i) * 2) ∘ Nat.succ) =
        (List.range f).map (fun i => 1 + (a + 1 + i) * 2) :=
      List.map_congr_left fun i _ => by simp [Function.comp]; ring
    rw [he]
    exact hs

lemma fetchGo_bounds (att : ℕ → AttemptOutcome) :
    ∀ (f a : ℕ), (fetchGo att a f).attemptsMade ≤ f ∧
      (fetchGo att a f).sleeps <+: (List.range f).map (fun i => 1 + (a + i) * 2) := by
  intro f
  induction f with
  | zero =>
    intro a
    exact ⟨Nat.le_refl 0, List.nil_prefix⟩
  | succ f ih =>
    intro a
    by_cases hr : retries (att a) = true
    · rw [fetchGo_retry att a f hr]
      exact retry_step_bounds att a f (ih (a + 1)).1 (ih (a + 1)).2
    · cases h0 : att a with
      | transportError =>
        rw [h0] at hr
        exact absurd rfl hr
      | status code body =>
        rw [h0] at hr
        unfold retries at hr
        simp only [Bool.or_eq_true, decide_eq_true_eq, not_or] at hr
        rw [fetchGo_success att a f code body h0 (by tauto) hr.2]
        exact ⟨Nat.one_le_iff_ne_zero.mpr (Nat.succ_ne_zero f), List.nil_prefix⟩

/-- C6: `get_latest_15m_kline` makes at most 3 HTTP attempts; its backoff
sleeps form a prefix of [1, 3, 5] seconds; when every attempt hits a
rate-limit/block status or a transport error it returns `None` (absent)
after exactly 3 attempts and sleeps of 1, 3, 5 seconds, rather than
raising; and an empty exchange result on a successful first attempt also
returns `None`. -/
theorem get_latest_retry_policy (att : ℕ → AttemptOutcome) :
    (get_latest_15m_kline att).attemptsMade ≤ 3 ∧
    (get_latest_15m_kline att).sleeps <+: [1, 3, 5] ∧
    ((∀ i, i < 3 → retries (att i) = true) →
      get_latest_15m_kline att = ⟨none, [1, 3, 5], 3⟩) ∧
    (∀ code, att 0 = .status code none → code < 400 →
      get_latest_15m_kline att = ⟨none, [], 1⟩) := by
  have hb := fetchGo_bounds att 3 0
  have hmap : (List.range 3).map (fun i => 1 + (0 + i) * 2) = [1, 3, 5] := by decide
  refine ⟨hb.1, by rw [← hmap]; exact hb.2, ?_, ?_⟩
  · intro h
    unfold get_latest_15m_kline
    have e1 := fetchGo_retry att 0 2 (h 0 (by norm_num))
    have e2 := fetchGo_retry att 1 1 (h 1 (by norm_num))
    have e3 := fetchGo_retry att 2 0 (h 2 (by norm_num))
    norm_num at e1 e2 e3
    rw [e1, e2, e3]
    rfl
  · intro code h0 hcode
    have e := fetchGo_success att 0 2 code none h0 (by omega) (by omega)
    exact e

/-- C6 witness: all transport errors gives absent after 3 attempts with
sleeps 1, 3, 5; a first-attempt empty result gives absent after 1 attempt
with no sleep. -/
theorem get_latest_retry_policy_witness :
    get_latest_15m_kline (fun _ => .transportError) = ⟨none, [1, 3, 5], 3⟩ ∧
    get_latest_15m_kline (fun _ => .status 200 none) = ⟨none, [], 1⟩ :=
  ⟨(get_latest_retry_policy (fun _ => .transportError)).2.2.1 (fun _ _ => rfl),
   (get_latest_retry_policy (fun _ => .status 200 none)).2.2.2 200 rfl
     (by norm_num)⟩

/-- The filtering decision of one exchange-info entry, as an optional kept
symbol name (specification-side restatement of `get_symbols_step`). -/
def keepSymbol (QUOTE : String) (EXCLUDED : List String)
    (s : SymbolInfo) : Option String :=
  if s.status ≠ some "TRADING" then none
  else if s.contractType ≠ some "PERPETUAL" then none
  else if s.quoteAsset ≠ some QUOTE then none
  else
    match s.symbol with
    | none => none
    | some sym => if sym = "" ∨ sym ∈ EXCLUDED then none else some sym

lemma get_symbols_step_eq (QUOTE : String) (EXCLUDED : List String)
    (symbols : List String) (s : SymbolInfo) :
    get_symbols_step QUOTE EXCLUDED symbols s =
      symbols ++ (keepSymbol QUOTE EXCLUDED s).toList := by
  unfold get_symbols_step keepSymbol
  split_ifs with h1 h2 h3
  · simp
  · simp
  · simp
  · cases s.symbol with
    | none => simp
    | some sym =>
      by_cases h4 : sym = "" ∨ sym ∈ EXCLUDED
      · simp [if_pos h4]
      · simp [if_neg h4]

lemma get_symbols_eq_filterMap (QUOTE : String) (EXCLUDED : List String) :
    ∀ (data : List SymbolInfo) (acc : List String),
      data.foldl (get_symbols_step QUOTE EXCLUDED) acc =
        acc ++ data.filterMap (keepSymbol QUOTE EXCLUDED) := by
  intro data
  induction data with
  | nil => intro acc; simp
  | cons s rest ih =>
    intro acc
    rw [List.foldl_cons, ih, get_symbols_step_eq, List.filterMap_cons]
    cases hk : keepSymbol QUOTE EXCLUDED s with
    | none => simp
    | some v => simp

/-- C7 (amended): membership in `get_symbols` is equivalent to the four
stated filters PLUS a nonempty symbol name: an entry passes iff its status
is TRADING, its contract type is PERPETUAL, its quote asset is the
configured quote, its name is not excluded, and its name is nonempty. -/
theorem get_symbols_filter (QUOTE : String) (EXCLUDED : List String)
    (data : List SymbolInfo) (sym : String) :
    sym ∈ get_symbols QUOTE EXCLUDED data ↔
      sym ≠ "" ∧ sym ∉ EXCLUDED ∧ ∃ s ∈ data,
        s.status = some "TRADING" ∧ s.contractType = some "PERPETUAL" ∧
        s.quoteAsset = some QUOTE ∧ s.symbol = some sym := by
  unfold get_symbols
  rw [get_symbols_eq_filterMap, List.nil_append, List.mem_filterMap]
  constructor
  · rintro ⟨s, hs, hk⟩
    unfold keepSymbol at hk
    split_ifs at hk with h1 h2 h3
    cases hsym : s.symbol with
    | none => rw [hsym] at hk; cases hk
    | some v =>
      rw [hsym] at hk
      change (if v = "" ∨ v ∈ EXCLUDED then none else some v) = some sym at hk
      split_ifs at hk with h4
      cases hk
      push_neg at h4
      exact ⟨h4.1, h4.2, s, hs, not_not.mp h1, not_not.mp h2, not_not.mp h3, hsym⟩
  · rintro ⟨hne, hnx, s, hs, h1, h2, h3, h4⟩
    refine ⟨s, hs, ?_⟩
    unfold keepSymbol
    rw [if_neg (by simp [h1]), if_neg (by simp [h2]), if_neg (by simp [h3]), h4]
    change (if sym = "" ∨ sym ∈ EXCLUDED then none else some sym) = some sym
    rw [if_neg (by simp [hne, hnx])]

/-- C7 witness: a TRADING PERPETUAL USDT entry with a nonempty, unexcluded
name is returned. -/
theorem get_symbols_filter_witness :
    "BTCUSDT" ∈ get_symbols "USDT" ["ETHUSDT"]
      [⟨some "TRADING", some "PERPETUAL", some "USDT", some "BTCUSDT"⟩] :=
  (get_symbols_filter "USDT" ["ETHUSDT"]
    [⟨some "TRADING", some "PERPETUAL", some "USDT", some "BTCUSDT"⟩]
    "BTCUSDT").mpr
    ⟨by decide, by decide, ⟨some "TRADING", some "PERPETUAL", some "USDT", some "BTCUSDT"⟩,
      List.mem_singleton_self _, rfl, rfl, rfl, rfl⟩

/-- C7 counterexample: an entry that satisfies all four filters of the
claim (TRADING, PERPETUAL, quote USDT, not excluded) but whose symbol name
is the empty string is omitted by `get_symbols` (`if not sym` drops it), so
the function does not return exactly the four-filter survivors. -/
theorem get_symbols_empty_name_counterexample :
    get_symbols "USDT" []
      [⟨some "TRADING", some "PERPETUAL", some "USDT", some ""⟩] = [] ∧
    (⟨some "TRADING", some "PERPETUAL", some "USDT", some ""⟩ : SymbolInfo).status = some "TRADING" ∧
    (⟨some "TRADING", some "PERPETUAL", some "USDT", some ""⟩ : SymbolInfo).contractType = some "PERPETUAL" ∧
    (⟨some "TRADING", some "PERPETUAL", some "USDT", some ""⟩ : SymbolInfo).quoteAsset = some "USDT" ∧
    (⟨some "TRADING", some "PERPETUAL", some "USDT", some ""⟩ : SymbolInfo).symbol = some "" ∧
    ("" : String) ∉ ([] : List String) := by
  refine ⟨by decide, rfl, rfl, rfl, rfl, by decide⟩

set_option maxRecDepth 4000 in
/-- C8: the spec's concrete scenario. For "ABCUSDT" with candle
open 100, close 94, open_time 1000 and THRESHOLD 6: pct = -6, |pct| ≥ 6;
the alert text carries direction "▼ DOWN" and move "6.00%"; the cycle
sends the notification and records the key; rerunning the cycle with the
same candle still latest sends nothing further. -/
theorem scenario_ABCUSDT_down :
    ((94 : ℚ) - 100) / 100 * 100 = -6 ∧
    |((94 : ℚ) - 100) / 100 * 100| ≥ 6 ∧
    make_alert_text "15m" "ABCUSDT" ⟨1000, 100, 100, 94, 94, 1899999⟩ (-6 : ℚ) =
      "<b>ABCUSDT</b> ▼ DOWN\nInterval: 15m | Move: <b>6.00%</b>\nOpen: 100.000000 | Close: 94.000000\nHigh: 100.000000 | Low: 94.000000\nOpen Time: 1970-01-01 00:00:01 UTC" ∧
    check_once 6 ["ABCUSDT"] (fun _ => some ⟨1000, 100, 100, 94, 94, 1899999⟩)
        (fun _ _ => true) [] =
      .ok ⟨[("ABCUSDT", 1000)], [("ABCUSDT", -6)], [("ABCUSDT", 1000)]⟩ ∧
    check_once 6 ["ABCUSDT"] (fun _ => some ⟨1000, 100, 100, 94, 94, 1899999⟩)
        (fun _ _ => true) [("ABCUSDT", 1000)] =
      .ok ⟨[("ABCUSDT", 1000)], [], []⟩ := by
  refine ⟨by norm_num, ?_, ?_, ?_, ?_⟩
  · rw [show ((94 : ℚ) - 100) / 100 * 100 = -6 by norm_num]
    norm_num
  · unfold make_alert_text
    rw [show |(-6 : ℚ)| = 6 by norm_num]
    rw [if_neg (by norm_num :
      ¬((⟨1000, 100, 100, 94, 94, 1899999⟩ : Candle).close ≥
        (⟨1000, 100, 100, 94, 94, 1899999⟩ : Candle).«open»))]
    decide
  · unfold check_once
    simp only [List.foldlM, worker]
    rw [if_neg (by norm_num :
      ¬((⟨1000, 100, 100, 94, 94, 1899999⟩ : Candle).«open» = 0))]
    rw [if_pos]
    · norm_num [mark_alerted, already_alerted]
    · constructor
      · rw [show (((⟨1000, 100, 100, 94, 94, 1899999⟩ : Candle).close -
            (⟨1000, 100, 100, 94, 94, 1899999⟩ : Candle).«open») /
            (⟨1000, 100, 100, 94, 94, 1899999⟩ : Candle).«open» * 100) = -6
            by norm_num]
        norm_num
      · decide
  · unfold check_once
    simp only [List.foldlM, worker]
    rw [if_neg (by norm_num :
      ¬((⟨1000, 100, 100, 94, 94, 1899999⟩ : Candle).«open» = 0)), if_neg]
    · rfl
    · rintro ⟨-, hfresh⟩
      exact absurd hfresh (by decide)

lemma main_loop_step_sleep (THRESHOLD POLL_SECONDS : ℚ) (e : CycleEnv)
    (store : Store) :
    (main_loop_step THRESHOLD POLL_SECONDS e store).2.2 =
      max 0 (POLL_SECONDS - e.elapsed) := by
  unfold main_loop_step
  cases hr : run_cycle THRESHOLD e.univ e.fetch e.send store with
  | ok st => rfl
  | error u => rfl

/-- C9: the scheduler loop is the outermost failure boundary: however the
cycles behave (including raising), the loop completes every iteration count
(it never terminates because of a cycle exception), each iteration sleeps
`max(0, POLL_SECONDS - elapsed)`, and a cycle whose universe fetch raises is
logged as an error, produces no record and no notification (the store passes
through unchanged), and is followed by the normal sleep. -/
theorem scheduler_loop_resilient (THRESHOLD POLL_SECONDS : ℚ)
    (env : ℕ → CycleEnv) (store0 : Store) :
    (∀ n, (main_loop_run THRESHOLD POLL_SECONDS env store0 n).2.length = n) ∧
    (∀ n, (main_loop_run THRESHOLD POLL_SECONDS env store0 n).2.map Prod.snd =
      (List.range n).map (fun i => max 0 (POLL_SECONDS - (env i).elapsed))) ∧
    (∀ (e : CycleEnv) (store : Store), e.univ = .error () →
      main_loop_step THRESHOLD POLL_SECONDS e store =
        (store, "Error in cycle:", max 0 (POLL_SECONDS - e.elapsed))) := by
  refine ⟨?_, ?_, ?_⟩
  · intro n
    induction n with
    | zero => rfl
    | succ n ih =>
      simp only [main_loop_run, List.length_append, ih, List.length_singleton]
  · intro n
    induction n with
    | zero => rfl
    | succ n ih =>
      rw [List.range_succ, List.map_append, ← ih]
      simp only [main_loop_run, List.map_append, List.map_cons, List.map_nil]
      rw [main_loop_step_sleep]
  · intro e store h
    unfold main_loop_step run_cycle
    rw [h]

/-- C9 witness: two iterations under an always-failing universe fetch:
both complete, and one step leaves the store unchanged with the error
logged and the cadence sleep. -/
theorem scheduler_loop_resilient_witness :
    (main_loop_run 6 60
      (fun _ => ⟨.error (), fun _ => none, fun _ _ => true, 12⟩) [] 2).2.length = 2 ∧
    main_loop_step 6 60 ⟨.error (), fun _ => none, fun _ _ => true, 12⟩ [] =
      ([], "Error in cycle:", max 0 (60 - 12)) :=
  ⟨(scheduler_loop_resilient 6 60
      (fun _ => ⟨.error (), fun _ => none, fun _ _ => true, 12⟩) []).1 2,
   (scheduler_loop_resilient 6 60
      (fun _ => ⟨.error (), fun _ => none, fun _ _ => true, 12⟩) []).2.2
      ⟨.error (), fun _ => none, fun _ _ => true, 12⟩ [] rfl⟩

/-- C10: configuration settings read at lines 18-22 (`INTERVAL`,
`THRESHOLD`, `POLL_SECONDS`, `QUOTE`, `EXCLUDED`) are looked up BEFORE
`load_dotenv()` runs, so when they are set only in the `.env` file (not in
the process environment) the built-in defaults "15m", 6, 60, "USDT" and the
empty exclusion set are used — whatever the `.env` file says; only
`TELEGRAM_BOT_TOKEN`, `TELEGRAM_CHAT_ID` and `DB_PATH`, read after
`load_dotenv()`, pick up `.env` values. -/
theorem config_env_ordering (env dotenv : EnvMap) (tok chat db : String)
    (h1 : env "INTERVAL" = none) (h2 : env "THRESHOLD" = none)
    (h3 : env "POLL_SECONDS" = none) (h4 : env "QUOTE" = none)
    (h5 : env "EXCLUDED" = none)
    (h6 : env "TELEGRAM_BOT_TOKEN" = none) (h7 : env "TELEGRAM_CHAT_ID" = none)
    (h8 : env "DB_PATH" = none)
    (d1 : dotenv "TELEGRAM_BOT_TOKEN" = some tok)
    (d2 : dotenv "TELEGRAM_CHAT_ID" = some chat)
    (d3 : dotenv "DB_PATH" = some db)
    (htok : stripStr tok ≠ "") (hchat : stripStr chat ≠ "") :
    module_init env dotenv =
      .ok ⟨"15m", 6, 60, "USDT", [], stripStr tok, stripStr chat, db⟩ := by
  have p1 : parseDecimal ((env "THRESHOLD").getD "6") = some 6 := by
    rw [h2]; decide
  have p2 : parsePyInt ((env "POLL_SECONDS").getD "60") = some 60 := by
    rw [h3]; decide
  unfold module_init load_dotenv getenv
  rw [h1, h4, h5, p1, p2]
  dsimp only
  rw [h6, d1, h7, d2, h8, d3]
  simp only [Option.getD_none, Option.getD_some]
  rw [if_neg (show ¬(stripStr tok = "" ∨ stripStr chat = "") by simp [htok, hchat])]
  simp

/-- C10 witness: an empty process environment with a `.env` file that sets
THRESHOLD to "9" and the credentials: the built-in defaults win for the
pre-dotenv settings (THRESHOLD stays 6), while the credentials and DB path
come from the `.env` file. -/
theorem config_env_ordering_witness :
    module_init (fun _ => none)
      (fun k =>
        if k = "THRESHOLD" then some "9"
        else if k = "TELEGRAM_BOT_TOKEN" then some " t0k "
        else if k = "TELEGRAM_CHAT_ID" then some "42"
        else if k = "DB_PATH" then some "custom.db"
        else none) =
      .ok ⟨"15m", 6, 60, "USDT", [], stripStr " t0k ", stripStr "42", "custom.db"⟩ :=
  config_env_ordering (fun _ => none)
    (fun k =>
      if k = "THRESHOLD" then some "9"
      else if k = "TELEGRAM_BOT_TOKEN" then some " t0k "
      else if k = "TELEGRAM_CHAT_ID" then some "42"
      else if k = "DB_PATH" then some "custom.db"
      else none)
    " t0k " "42" "custom.db" rfl rfl rfl rfl rfl rfl rfl rfl
    (by decide) (by decide) (by decide) (by decide) (by decide)
